import Mathlib

/-!
Shallow embedding of `src/piper_boot_init.cpp` (Piper arm boot initializer).

The program is a one-shot initialization sequencer: `PiperInitializer::run`
drives six steps (create interface, connect port, wait for connection,
check arm status, enable motors, perform homing), each consulting a device
interface and a global cancellation flag.

Modelling conventions:
* The device interface and the cancellation flag are an environment `Env`
  of response streams: the k-th call of each kind during a given loop
  receives the k-th element of the corresponding stream.
* Deadline loops (`while (now < deadline) { ... sleep(interval); }`) are
  modelled by fuel: the environment supplies the number of loop iterations
  that fit before the deadline passes (`connect_polls`, `enable_polls`,
  `homing_polls`).
* Each function returns its `InitError` outcome together with the list of
  calls it issued, in program order. Reads of `g_shutdown_requested` are
  recorded with the value observed (`Call.pollShutdown b`).
* `checkArmStatus` returns `Option InitError`: `none` marks the execution
  reaching the dereference of an empty `std::optional` at the success log
  line (undefined behaviour in the C++ source), which has no defined
  outcome.
-/

/-- `enum class InitError` of the source. -/
inductive InitError where
  | OK
  | CAN_OPEN_FAILED
  | CONNECT_FAILED
  | ENABLE_FAILED
  | ENABLE_TIMEOUT
  | HOME_FAILED
  | HOME_TIMEOUT
  | SIGNAL_INTERRUPTED
  | STATUS_CHECK_FAILED
  | ARM_ERROR
  deriving DecidableEq, Repr

/-- The numeric exit code of each `InitError` value, as in the C++ enum. -/
def InitError.code : InitError → Int
  | .OK => 0
  | .CAN_OPEN_FAILED => 1
  | .CONNECT_FAILED => 2
  | .ENABLE_FAILED => 3
  | .ENABLE_TIMEOUT => 4
  | .HOME_FAILED => 5
  | .HOME_TIMEOUT => 6
  | .SIGNAL_INTERRUPTED => 7
  | .STATUS_CHECK_FAILED => 8
  | .ARM_ERROR => 9

/-- Connection status returned by `piper_->get_connect_status()`. -/
structure ConnectStatus where
  connected : Bool
  stale : Bool
  deriving DecidableEq, Repr

/-- Arm status snapshot returned by `piper_->get_arm_status()`:
error code, enabled flag, control mode, and joint positions in
thousandths of a degree (`joints.position_mdeg`). -/
structure ArmStatus where
  error_code : Int
  enabled : Bool
  control_mode : Int
  position_mdeg : List Int
  deriving DecidableEq, Repr

/-- `PiperInitializer::Config` of the source.  Durations are in
milliseconds; their effect on the dynamics (how many poll iterations fit
before a deadline) is supplied by the environment. -/
structure Config where
  can_interface : String := "can0"
  connect_timeout : Nat := 5000
  enable_timeout : Nat := 10000
  home_timeout : Nat := 60000
  status_poll_interval : Nat := 50
  home_retry_count : Nat := 2
  motion_speed_percent : Nat := 30
  target_joints : List Int := [0, 0, 0, 0, 0, 0]

/-- One call issued to the device interface, or one read of the global
cancellation flag `g_shutdown_requested` (with the value observed). -/
inductive Call where
  | create
  | connectPort
  | getConnectStatus
  | getFirmware
  | getCachedFirmware
  | getArmStatus
  | resetArm
  | enableArm
  | enablePiper
  | motionControl2
  | moveJoint
  | pollShutdown (observed : Bool)
  deriving DecidableEq, Repr

/-- The first step of `run` that can issue a given device call
(`pollShutdown` is not a device call and is mapped to 0). -/
def Call.step : Call → Nat
  | .create => 1
  | .connectPort => 2
  | .getConnectStatus => 3
  | .getFirmware => 3
  | .getCachedFirmware => 3
  | .getArmStatus => 4
  | .resetArm => 4
  | .enableArm => 5
  | .enablePiper => 5
  | .motionControl2 => 6
  | .moveJoint => 6
  | .pollShutdown _ => 0

/-- The environment: responses of the device interface and values of the
cancellation flag, as streams indexed by call number within each loop,
plus the number of iterations each deadline-bounded loop completes before
its deadline passes. -/
structure Env where
  /-- constructors of `SocketCanTransport` / `PiperInterface` do not throw -/
  create_ok : Bool
  /-- `connect_port(10ms, true, true).ok` -/
  connect_port_ok : Bool
  /-- iterations of the wait-for-connection loop before `connect_timeout` -/
  connect_polls : Nat
  /-- k-th read of `g_shutdown_requested` in `waitForConnection` -/
  shutdown_connect : Nat → Bool
  /-- k-th `get_connect_status()` in `waitForConnection` -/
  connect_status : Nat → ConnectStatus
  /-- first `get_arm_status()` in `checkArmStatus` -/
  arm_status_first : Option ArmStatus
  /-- re-fetch `get_arm_status()` after `reset_arm()` in `checkArmStatus` -/
  arm_status_refetch : Option ArmStatus
  /-- `enable_arm(7).ok` -/
  enable_arm_ok : Bool
  /-- k-th `enable_piper()` in the fast confirmation loop -/
  enable_fast : Nat → Bool
  /-- k-th read of `g_shutdown_requested` in the fast confirmation loop -/
  shutdown_enable_fast : Nat → Bool
  /-- iterations of the long enable loop before `enable_timeout` -/
  enable_polls : Nat
  /-- k-th read of `g_shutdown_requested` in the long enable loop -/
  shutdown_enable_slow : Nat → Bool
  /-- k-th `enable_piper()` in the long enable loop -/
  enable_slow : Nat → Bool
  /-- read of `g_shutdown_requested` at the head of homing attempt `a` -/
  shutdown_homing : Nat → Bool
  /-- `motion_control_2(...).ok` at homing attempt `a` -/
  motion_ok : Nat → Bool
  /-- `move_joint(...).ok` at homing attempt `a` -/
  move_ok : Nat → Bool
  /-- iterations of the convergence wait of attempt `a` before `home_timeout` -/
  homing_polls : Nat → Nat
  /-- k-th read of `g_shutdown_requested` in the convergence wait of attempt `a` -/
  shutdown_wait : Nat → Nat → Bool
  /-- k-th `get_arm_status()` in the convergence wait of attempt `a` -/
  arm_status_wait : Nat → Nat → Option ArmStatus

/-- `kPositionTolerance = 1000` (one degree, in thousandths of a degree). -/
def kPositionTolerance : Int := 1000

/-- The convergence check of `waitHomingDone` (lines 414-423): iterate
`i` below the minimum of the two lengths; the snapshot converged when no
compared pair differs by more than `kPositionTolerance` in absolute value. -/
def allAtTarget (positions targets : List Int) : Bool :=
  (positions.zip targets).all fun pt => decide (|pt.1 - pt.2| ≤ kPositionTolerance)

/-- `PiperInitializer::waitForConnection` (step 3): deadline loop checking
the cancellation flag, then `get_connect_status()`; on `connected && !stale`
it fetches the firmware version (best effort) and returns OK; when the
deadline passes it returns `CONNECT_FAILED`. -/
def waitForConnection (env : Env) : Nat → Nat → InitError × List Call
  | 0, _ => (.CONNECT_FAILED, [])
  | fuel + 1, k =>
    if env.shutdown_connect k then
      (.SIGNAL_INTERRUPTED, [.pollShutdown true])
    else
      let st := env.connect_status k
      if st.connected && !st.stale then
        (.OK, [.pollShutdown false, .getConnectStatus, .getFirmware, .getCachedFirmware])
      else
        let r := waitForConnection env fuel (k + 1)
        (r.1, .pollShutdown false :: .getConnectStatus :: r.2)

/-- `PiperInitializer::checkArmStatus` (step 4).  `none` in the first
component marks the undefined dereference of the empty optional at the
success log line (line 284) when the post-reset re-fetch returned no
status. -/
def checkArmStatus (env : Env) : Option InitError × List Call :=
  match env.arm_status_first with
  | none => (some .OK, [.getArmStatus])
  | some st =>
    if st.error_code ≠ 0 then
      match env.arm_status_refetch with
      | some st2 =>
        if st2.error_code ≠ 0 then
          (some .ARM_ERROR, [.getArmStatus, .resetArm, .getArmStatus])
        else
          (some .OK, [.getArmStatus, .resetArm, .getArmStatus])
      | none => (none, [.getArmStatus, .resetArm, .getArmStatus])
    else
      (some .OK, [.getArmStatus])

/-- `MAX_RETRIES = 200` of the fast enable-confirmation loop. -/
def MAX_RETRIES : Nat := 200

/-- The fast confirmation loop of `enableMotors`:
`while (!enable_piper() && retry_count < MAX_RETRIES)` with a cancellation
check and a 10 ms sleep in the body.  `fuel` is `MAX_RETRIES - k`; the
result carries an early `SIGNAL_INTERRUPTED` (if any) and the final value
of `retry_count`. -/
def enableFastLoop (env : Env) (fuel k : Nat) : Option InitError × Nat × List Call :=
  if env.enable_fast k then
    (none, k, [.enablePiper])
  else
    match fuel with
    | 0 => (none, k, [.enablePiper])
    | fuel' + 1 =>
      if env.shutdown_enable_fast k then
        (some .SIGNAL_INTERRUPTED, k, [.enablePiper, .pollShutdown true])
      else
        let r := enableFastLoop env fuel' (k + 1)
        (r.1, r.2.1, .enablePiper :: .pollShutdown false :: r.2.2)

/-- The long deadline-bounded enable loop of `enableMotors`: until
`enable_timeout` passes, check cancellation, then `enable_piper()`;
exhausting the deadline yields `ENABLE_TIMEOUT`. -/
def enableSlowLoop (env : Env) : Nat → Nat → InitError × List Call
  | 0, _ => (.ENABLE_TIMEOUT, [])
  | fuel + 1, k =>
    if env.shutdown_enable_slow k then
      (.SIGNAL_INTERRUPTED, [.pollShutdown true])
    else if env.enable_slow k then
      (.OK, [.pollShutdown false, .enablePiper])
    else
      let r := enableSlowLoop env fuel (k + 1)
      (r.1, .pollShutdown false :: .enablePiper :: r.2)

/-- `PiperInitializer::enableMotors` (step 5): issue `enable_arm(7)`
(failure only logged), run the fast confirmation loop; if it exhausted
`MAX_RETRIES`, run the long deadline loop. -/
def enableMotors (env : Env) : InitError × List Call :=
  let fastr := enableFastLoop env MAX_RETRIES 0
  match fastr.1 with
  | some err => (err, .enableArm :: fastr.2.2)
  | none =>
    if fastr.2.1 ≥ MAX_RETRIES then
      let slowr := enableSlowLoop env env.enable_polls 0
      (slowr.1, .enableArm :: (fastr.2.2 ++ slowr.2))
    else
      (.OK, .enableArm :: fastr.2.2)

/-- `PiperInitializer::waitHomingDone` for homing attempt `a`: deadline
loop checking cancellation, then fetching the arm status; a nonzero error
code yields `ARM_ERROR`, a converged snapshot yields OK, a missing
snapshot just waits; when the deadline passes it returns `HOME_TIMEOUT`. -/
def waitHomingDone (env : Env) (cfg : Config) (a : Nat) : Nat → Nat → InitError × List Call
  | 0, _ => (.HOME_TIMEOUT, [])
  | fuel + 1, k =>
    if env.shutdown_wait a k then
      (.SIGNAL_INTERRUPTED, [.pollShutdown true])
    else
      match env.arm_status_wait a k with
      | some st =>
        if st.error_code ≠ 0 then
          (.ARM_ERROR, [.pollShutdown false, .getArmStatus])
        else if allAtTarget st.position_mdeg cfg.target_joints then
          (.OK, [.pollShutdown false, .getArmStatus])
        else
          let r := waitHomingDone env cfg a fuel (k + 1)
          (r.1, .pollShutdown false :: .getArmStatus :: r.2)
      | none =>
        let r := waitHomingDone env cfg a fuel (k + 1)
        (r.1, .pollShutdown false :: .getArmStatus :: r.2)

/-- The retry loop of `PiperInitializer::performHoming`:
`for (retry = 0; retry < home_retry_count; retry++)`.  `fuel` is
`home_retry_count - a` where `a` is the attempt index.  Each attempt
checks cancellation, sets the motion mode, issues the move command (a
failed command aborts the attempt), then waits for convergence; only OK
and `SIGNAL_INTERRUPTED` from the wait are returned directly, every other
wait outcome falls through to the next attempt.  Exhausting the loop
yields `HOME_FAILED`. -/
def performHomingLoop (env : Env) (cfg : Config) : Nat → Nat → InitError × List Call
  | 0, _ => (.HOME_FAILED, [])
  | fuel + 1, a =>
    if env.shutdown_homing a then
      (.SIGNAL_INTERRUPTED, [.pollShutdown true])
    else if !env.motion_ok a then
      let r := performHomingLoop env cfg fuel (a + 1)
      (r.1, .pollShutdown false :: .motionControl2 :: r.2)
    else if !env.move_ok a then
      let r := performHomingLoop env cfg fuel (a + 1)
      (r.1, .pollShutdown false :: .motionControl2 :: .moveJoint :: r.2)
    else
      let w := waitHomingDone env cfg a (env.homing_polls a) 0
      let pre := Call.pollShutdown false :: .motionControl2 :: .moveJoint :: w.2
      if w.1 = .OK then
        (.OK, pre)
      else if w.1 = .SIGNAL_INTERRUPTED then
        (.SIGNAL_INTERRUPTED, pre)
      else
        let r := performHomingLoop env cfg fuel (a + 1)
        (r.1, pre ++ r.2)

/-- `PiperInitializer::performHoming` (step 6): the retry loop starting at
attempt 0 with `home_retry_count` iterations. -/
def performHoming (env : Env) (cfg : Config) : InitError × List Call :=
  performHomingLoop env cfg cfg.home_retry_count 0

/-- `PiperInitializer::run`: steps 1-6 in order, short-circuiting on the
first non-OK outcome.  The first component is `none` exactly when
execution reaches the undefined dereference in `checkArmStatus`. -/
def run (env : Env) (cfg : Config) : Option InitError × List Call :=
  if !env.create_ok then
    (some .CAN_OPEN_FAILED, [.create])
  else if !env.connect_port_ok then
    (some .CONNECT_FAILED, [.create, .connectPort])
  else
    let r3 := waitForConnection env env.connect_polls 0
    if r3.1 ≠ .OK then
      (some r3.1, .create :: .connectPort :: r3.2)
    else
      let r4 := checkArmStatus env
      match r4.1 with
      | none => (none, .create :: .connectPort :: (r3.2 ++ r4.2))
      | some e4 =>
        if e4 ≠ .OK then
          (some e4, .create :: .connectPort :: (r3.2 ++ r4.2))
        else
          let r5 := enableMotors env
          if r5.1 ≠ .OK then
            (some r5.1, .create :: .connectPort :: (r3.2 ++ r4.2 ++ r5.2))
          else
            let r6 := performHoming env cfg
            (some r6.1, .create :: .connectPort :: (r3.2 ++ r4.2 ++ r5.2 ++ r6.2))

/-! ### Concrete test environments -/

/-- A clean, converged arm status. -/
def stOk : ArmStatus :=
  { error_code := 0, enabled := true, control_mode := 1,
    position_mdeg := [0, 0, 0, 0, 0, 0] }

/-- A clean status whose first joint is 5000 mdeg away from target 0. -/
def stFar : ArmStatus :=
  { error_code := 0, enabled := true, control_mode := 1,
    position_mdeg := [5000, 0, 0, 0, 0, 0] }

/-- A status with error code 3. -/
def stErr : ArmStatus :=
  { error_code := 3, enabled := false, control_mode := 1,
    position_mdeg := [0, 0, 0, 0, 0, 0] }

/-- A clean status with an empty joint-position report. -/
def stEmpty : ArmStatus :=
  { error_code := 0, enabled := true, control_mode := 1,
    position_mdeg := [] }

/-- The default configuration (as constructed in the source). -/
def cfg0 : Config := {}

/-- A fully cooperative environment: immediate connection, clean arm
status, immediate enable confirmation, converged position on every
homing poll, cancellation never requested. -/
def testEnv : Env where
  create_ok := true
  connect_port_ok := true
  connect_polls := 3
  shutdown_connect := fun _ => false
  connect_status := fun _ => { connected := true, stale := false }
  arm_status_first := some stOk
  arm_status_refetch := none
  enable_arm_ok := true
  enable_fast := fun _ => true
  shutdown_enable_fast := fun _ => false
  enable_polls := 5
  shutdown_enable_slow := fun _ => false
  enable_slow := fun _ => false
  shutdown_homing := fun _ => false
  motion_ok := fun _ => true
  move_ok := fun _ => true
  homing_polls := fun _ => 2
  shutdown_wait := fun _ _ => false
  arm_status_wait := fun _ _ => some stOk

/-- Environment whose homing polls never converge (first joint stays
5000 mdeg away) and never report an error. -/
def envNoConverge : Env := { testEnv with arm_status_wait := fun _ _ => some stFar }

/-- Environment whose first homing attempt observes arm error 3 at its
first convergence poll, while the second attempt converges cleanly. -/
def envArmErrFirst : Env :=
  { testEnv with arm_status_wait := fun a _ => if a = 0 then some stErr else some stOk }

/-- Environment in which `enable_piper()` never confirms, in either loop. -/
def envNeverEnable : Env := { testEnv with enable_fast := fun _ => false }

/-- Environment whose device never reports `connected = true`. -/
def envNeverConnected : Env :=
  { testEnv with connect_status := fun _ => { connected := false, stale := false } }

/-- Environment whose arm reports error code 3 persistently, also after
the reset. -/
def envPersistentErr : Env :=
  { testEnv with arm_status_first := some stErr, arm_status_refetch := some stErr }

/-- Environment whose arm reports error code 3 and then returns no
status at all on the post-reset re-fetch. -/
def envErrThenMissing : Env :=
  { testEnv with arm_status_first := some stErr, arm_status_refetch := none }

/-- Environment in which cancellation is observed at the very first poll
of the wait-for-connection loop. -/
def envShutdownEarly : Env := { testEnv with shutdown_connect := fun _ => true }

/-- Environment whose every homing attempt observes arm error 3 at its
first convergence poll. -/
def envAllArmErr : Env := { testEnv with arm_status_wait := fun _ _ => some stErr }

/-- Environment whose homing polls report an empty joint-position vector. -/
def envEmptyJoints : Env := { testEnv with arm_status_wait := fun _ _ => some stEmpty }

/-- `failsAt env cfg k e`: step `k` of `run` is the first step to fail,
with outcome `e` (steps before it succeed).  Step 6 cannot "fail first
and leave later steps": there are none after it. -/
def failsAt (env : Env) (_cfg : Config) : Nat → InitError → Prop
  | 1, e => env.create_ok = false ∧ e = .CAN_OPEN_FAILED
  | 2, e => env.create_ok = true ∧ env.connect_port_ok = false ∧ e = .CONNECT_FAILED
  | 3, e => env.create_ok = true ∧ env.connect_port_ok = true ∧
      (waitForConnection env env.connect_polls 0).1 = e ∧ e ≠ .OK
  | 4, e => env.create_ok = true ∧ env.connect_port_ok = true ∧
      (waitForConnection env env.connect_polls 0).1 = .OK ∧
      (checkArmStatus env).1 = some e ∧ e ≠ .OK
  | 5, e => env.create_ok = true ∧ env.connect_port_ok = true ∧
      (waitForConnection env env.connect_polls 0).1 = .OK ∧
      (checkArmStatus env).1 = some .OK ∧
      (enableMotors env).1 = e ∧ e ≠ .OK
  | 6, e => env.create_ok = true ∧ env.connect_port_ok = true ∧
      (waitForConnection env env.connect_polls 0).1 = .OK ∧
      (checkArmStatus env).1 = some .OK ∧
      (enableMotors env).1 = .OK ∧
      (performHoming env _cfg).1 = e ∧ e ≠ .OK
  | _, _ => False

/-! ### Helper lemmas about the individual loops -/

/-- A set cancellation flag observed in `waitForConnection` forces
`SIGNAL_INTERRUPTED`. -/
lemma waitForConnection_shutdown (env : Env) :
    ∀ fuel k, Call.pollShutdown true ∈ (waitForConnection env fuel k).2 →
      (waitForConnection env fuel k).1 = .SIGNAL_INTERRUPTED := by
  intro fuel
  induction fuel with
  | zero => intro k h; simp [waitForConnection] at h
  | succ n ih =>
    intro k h
    simp only [waitForConnection] at h ⊢
    by_cases hsd : env.shutdown_connect k
    · simp [hsd]
    · simp only [hsd, if_false, Bool.false_eq_true] at h ⊢
      by_cases hc : (env.connect_status k).connected && !(env.connect_status k).stale
      · simp [hc] at h
      · simp only [hc, if_false, Bool.false_eq_true, List.mem_cons] at h ⊢
        rcases h with h | h | h
        · exact absurd h (by simp)
        · exact absurd h (by simp)
        · exact ih (k + 1) h

/-- The outcomes `waitForConnection` can produce. -/
lemma waitForConnection_results (env : Env) :
    ∀ fuel k, (waitForConnection env fuel k).1 = .OK ∨
      (waitForConnection env fuel k).1 = .CONNECT_FAILED ∨
      (waitForConnection env fuel k).1 = .SIGNAL_INTERRUPTED := by
  intro fuel
  induction fuel with
  | zero => intro k; simp [waitForConnection]
  | succ n ih =>
    intro k
    simp only [waitForConnection]
    by_cases hsd : env.shutdown_connect k
    · simp [hsd]
    · simp only [hsd, if_false, Bool.false_eq_true]
      by_cases hc : (env.connect_status k).connected && !(env.connect_status k).stale
      · simp [hc]
      · simpa [hc] using ih (k + 1)

/-- Every call issued by `waitForConnection` belongs to step 3 (or is a
cancellation-flag read). -/
lemma waitForConnection_steps (env : Env) :
    ∀ fuel k, ∀ c ∈ (waitForConnection env fuel k).2, c.step ≤ 3 := by
  intro fuel
  induction fuel with
  | zero => intro k c h; simp [waitForConnection] at h
  | succ n ih =>
    intro k c h
    simp only [waitForConnection] at h
    by_cases hsd : env.shutdown_connect k
    · simp [hsd] at h; simp [h, Call.step]
    · simp only [hsd, if_false, Bool.false_eq_true] at h
      by_cases hc : (env.connect_status k).connected && !(env.connect_status k).stale
      · simp only [hc, if_true, List.mem_cons, List.mem_singleton] at h
        rcases h with h | h | h | h <;> simp_all [Call.step]
      · simp only [hc, if_false, Bool.false_eq_true, List.mem_cons] at h
        rcases h with h | h | h
        · simp [h, Call.step]
        · simp [h, Call.step]
        · exact ih (k + 1) c h

/-- The outcomes `checkArmStatus` can produce (with `none` for the
undefined dereference). -/
lemma checkArmStatus_results (env : Env) :
    (checkArmStatus env).1 = none ∨ (checkArmStatus env).1 = some .OK ∨
      (checkArmStatus env).1 = some .ARM_ERROR := by
  unfold checkArmStatus
  rcases env.arm_status_first with _ | st
  · simp
  · by_cases he : st.error_code ≠ 0
    · rcases env.arm_status_refetch with _ | st2
      · simp [he]
      · by_cases he2 : st2.error_code ≠ 0 <;> simp [he, he2]
    · simp [he]

/-- `checkArmStatus` only calls `get_arm_status` and `reset_arm`. -/
lemma checkArmStatus_calls (env : Env) :
    ∀ c ∈ (checkArmStatus env).2, c = .getArmStatus ∨ c = .resetArm := by
  unfold checkArmStatus
  rcases env.arm_status_first with _ | st
  · simp
  · by_cases he : st.error_code ≠ 0
    · rcases env.arm_status_refetch with _ | st2
      · simp [he]
      · by_cases he2 : st2.error_code ≠ 0 <;> simp [he, he2]
    · simp [he]

/-- A set cancellation flag observed in the fast enable loop forces
`SIGNAL_INTERRUPTED`. -/
lemma enableFastLoop_shutdown (env : Env) :
    ∀ fuel k, Call.pollShutdown true ∈ (enableFastLoop env fuel k).2.2 →
      (enableFastLoop env fuel k).1 = some .SIGNAL_INTERRUPTED := by
  intro fuel
  induction fuel with
  | zero =>
    intro k h
    simp only [enableFastLoop] at h ⊢
    by_cases he : env.enable_fast k <;> simp [he] at h
  | succ n ih =>
    intro k h
    simp only [enableFastLoop] at h ⊢
    by_cases he : env.enable_fast k
    · simp [he] at h
    · simp only [he, if_false, Bool.false_eq_true] at h ⊢
      by_cases hsd : env.shutdown_enable_fast k
      · simp [hsd]
      · simp only [hsd, if_false, Bool.false_eq_true, List.mem_cons] at h ⊢
        rcases h with h | h | h
        · exact absurd h (by simp)
        · exact absurd h (by simp)
        · exact ih (k + 1) h

/-- The fast enable loop either finishes or is interrupted. -/
lemma enableFastLoop_results (env : Env) :
    ∀ fuel k, (enableFastLoop env fuel k).1 = none ∨
      (enableFastLoop env fuel k).1 = some .SIGNAL_INTERRUPTED := by
  intro fuel
  induction fuel with
  | zero =>
    intro k
    simp only [enableFastLoop]
    by_cases he : env.enable_fast k <;> simp [he]
  | succ n ih =>
    intro k
    simp only [enableFastLoop]
    by_cases he : env.enable_fast k
    · simp [he]
    · simp only [he, if_false, Bool.false_eq_true]
      by_cases hsd : env.shutdown_enable_fast k
      · simp [hsd]
      · simpa [hsd] using ih (k + 1)

/-- The fast enable loop only calls `enable_piper` (and reads the flag). -/
lemma enableFastLoop_calls (env : Env) :
    ∀ fuel k, ∀ c ∈ (enableFastLoop env fuel k).2.2,
      c = .enablePiper ∨ c = .pollShutdown true ∨ c = .pollShutdown false := by
  intro fuel
  induction fuel with
  | zero =>
    intro k c h
    simp only [enableFastLoop] at h
    by_cases he : env.enable_fast k <;> simp [he] at h <;> simp [h]
  | succ n ih =>
    intro k c h
    simp only [enableFastLoop] at h
    by_cases he : env.enable_fast k
    · simp [he] at h; simp [h]
    · simp only [he, if_false, Bool.false_eq_true] at h
      by_cases hsd : env.shutdown_enable_fast k
      · simp [hsd] at h; tauto
      · simp only [hsd, if_false, Bool.false_eq_true, List.mem_cons] at h
        rcases h with h | h | h
        · simp [h]
        · simp [h]
        · exact ih (k + 1) c h

/-- When `enable_piper` never succeeds and no cancellation is observed, the
fast loop exhausts its fuel: the final `retry_count` is `k + fuel` and it
issued `fuel + 1` `enable_piper` calls. -/
lemma enableFastLoop_never (env : Env)
    (hf : ∀ j, env.enable_fast j = false)
    (hsd : ∀ j, env.shutdown_enable_fast j = false) :
    ∀ fuel k, (enableFastLoop env fuel k).1 = none ∧
      (enableFastLoop env fuel k).2.1 = k + fuel ∧
      (enableFastLoop env fuel k).2.2.count .enablePiper = fuel + 1 := by
  intro fuel
  induction fuel with
  | zero => intro k; simp [enableFastLoop, hf]
  | succ n ih =>
    intro k
    simp only [enableFastLoop, hf, hsd, if_false, Bool.false_eq_true]
    obtain ⟨h1, h2, h3⟩ := ih (k + 1)
    refine ⟨h1, by omega, ?_⟩
    simp [List.count_cons, h3]

/-- A set cancellation flag observed in the long enable loop forces
`SIGNAL_INTERRUPTED`. -/
lemma enableSlowLoop_shutdown (env : Env) :
    ∀ fuel k, Call.pollShutdown true ∈ (enableSlowLoop env fuel k).2 →
      (enableSlowLoop env fuel k).1 = .SIGNAL_INTERRUPTED := by
  intro fuel
  induction fuel with
  | zero => intro k h; simp [enableSlowLoop] at h
  | succ n ih =>
    intro k h
    simp only [enableSlowLoop] at h ⊢
    by_cases hsd : env.shutdown_enable_slow k
    · simp [hsd]
    · simp only [hsd, if_false, Bool.false_eq_true] at h ⊢
      by_cases he : env.enable_slow k
      · simp [he] at h
      · simp only [he, if_false, Bool.false_eq_true, List.mem_cons] at h ⊢
        rcases h with h | h | h
        · exact absurd h (by simp)
        · exact absurd h (by simp)
        · exact ih (k + 1) h

/-- The outcomes the long enable loop can produce. -/
lemma enableSlowLoop_results (env : Env) :
    ∀ fuel k, (enableSlowLoop env fuel k).1 = .OK ∨
      (enableSlowLoop env fuel k).1 = .ENABLE_TIMEOUT ∨
      (enableSlowLoop env fuel k).1 = .SIGNAL_INTERRUPTED := by
  intro fuel
  induction fuel with
  | zero => intro k; simp [enableSlowLoop]
  | succ n ih =>
    intro k
    simp only [enableSlowLoop]
    by_cases hsd : env.shutdown_enable_slow k
    · simp [hsd]
    · simp only [hsd, if_false, Bool.false_eq_true]
      by_cases he : env.enable_slow k
      · simp [he]
      · simpa [he] using ih (k + 1)

/-- The long enable loop only calls `enable_piper` (and reads the flag). -/
lemma enableSlowLoop_calls (env : Env) :
    ∀ fuel k, ∀ c ∈ (enableSlowLoop env fuel k).2,
      c = .enablePiper ∨ c = .pollShutdown true ∨ c = .pollShutdown false := by
  intro fuel
  induction fuel with
  | zero => intro k c h; simp [enableSlowLoop] at h
  | succ n ih =>
    intro k c h
    simp only [enableSlowLoop] at h
    by_cases hsd : env.shutdown_enable_slow k
    · simp [hsd] at h; simp [h]
    · simp only [hsd, if_false, Bool.false_eq_true] at h
      by_cases he : env.enable_slow k
      · simp [he] at h; tauto
      · simp only [he, if_false, Bool.false_eq_true, List.mem_cons] at h
        rcases h with h | h | h
        · simp [h]
        · simp [h]
        · exact ih (k + 1) c h

/-- When `enable_piper` never succeeds in the long loop and no cancellation
is observed, the loop exhausts its fuel with `ENABLE_TIMEOUT` after `fuel`
`enable_piper` calls. -/
lemma enableSlowLoop_never (env : Env)
    (hf : ∀ j, env.enable_slow j = false)
    (hsd : ∀ j, env.shutdown_enable_slow j = false) :
    ∀ fuel k, (enableSlowLoop env fuel k).1 = .ENABLE_TIMEOUT ∧
      (enableSlowLoop env fuel k).2.count .enablePiper = fuel := by
  intro fuel
  induction fuel with
  | zero => intro k; simp [enableSlowLoop]
  | succ n ih =>
    intro k
    simp only [enableSlowLoop, hf, hsd, if_false, Bool.false_eq_true]
    obtain ⟨h1, h2⟩ := ih (k + 1)
    exact ⟨h1, by simp [List.count_cons, h2]⟩

/-- A set cancellation flag observed anywhere in `enableMotors` forces
`SIGNAL_INTERRUPTED`. -/
lemma enableMotors_shutdown (env : Env) :
    Call.pollShutdown true ∈ (enableMotors env).2 →
    (enableMotors env).1 = .SIGNAL_INTERRUPTED := by
  intro h
  unfold enableMotors at h ⊢
  rcases hr : (enableFastLoop env MAX_RETRIES 0).1 with _ | e
  · simp only [hr] at h ⊢
    by_cases hge : (enableFastLoop env MAX_RETRIES 0).2.1 ≥ MAX_RETRIES
    · simp only [hge, if_true, List.mem_cons, List.mem_append] at h ⊢
      rcases h with h | h | h
      · exact absurd h (by simp)
      · exact absurd (enableFastLoop_shutdown env MAX_RETRIES 0 h) (by simp [hr])
      · exact enableSlowLoop_shutdown env env.enable_polls 0 h
    · simp only [hge, if_false, List.mem_cons] at h
      rcases h with h | h
      · exact absurd h (by simp)
      · exact absurd (enableFastLoop_shutdown env MAX_RETRIES 0 h) (by simp [hr])
  · have := enableFastLoop_results env MAX_RETRIES 0
    rw [hr] at this
    rcases this with h' | h'
    · exact absurd h' (by simp)
    · simp only [hr] at h ⊢
      simpa using h'

/-- The outcomes `enableMotors` can produce. -/
lemma enableMotors_results (env : Env) :
    (enableMotors env).1 = .OK ∨ (enableMotors env).1 = .ENABLE_TIMEOUT ∨
      (enableMotors env).1 = .SIGNAL_INTERRUPTED := by
  unfold enableMotors
  rcases hr : (enableFastLoop env MAX_RETRIES 0).1 with _ | e
  · by_cases hge : (enableFastLoop env MAX_RETRIES 0).2.1 ≥ MAX_RETRIES
    · simpa [hr, hge] using enableSlowLoop_results env env.enable_polls 0
    · simp [hr, hge]
  · have := enableFastLoop_results env MAX_RETRIES 0
    rw [hr] at this
    rcases this with h' | h'
    · exact absurd h' (by simp)
    · simp only [hr]
      simp only [Option.some.injEq] at h'
      simp [h']

/-- Every call issued by `enableMotors` belongs to step 5 (or is a
cancellation-flag read). -/
lemma enableMotors_steps (env : Env) :
    ∀ c ∈ (enableMotors env).2, c.step ≤ 5 := by
  intro c h
  unfold enableMotors at h
  rcases hr : (enableFastLoop env MAX_RETRIES 0).1 with _ | e <;> simp only [hr] at h
  · by_cases hge : (enableFastLoop env MAX_RETRIES 0).2.1 ≥ MAX_RETRIES
    · simp only [hge, if_true, List.mem_cons, List.mem_append] at h
      rcases h with h | h | h
      · simp [h, Call.step]
      · rcases enableFastLoop_calls env MAX_RETRIES 0 c h with h' | h' | h' <;>
          simp [h', Call.step]
      · rcases enableSlowLoop_calls env env.enable_polls 0 c h with h' | h' | h' <;>
          simp [h', Call.step]
    · simp only [hge, if_false, List.mem_cons] at h
      rcases h with h | h
      · simp [h, Call.step]
      · rcases enableFastLoop_calls env MAX_RETRIES 0 c h with h' | h' | h' <;>
          simp [h', Call.step]
  · simp only [List.mem_cons] at h
    rcases h with h | h
    · simp [h, Call.step]
    · rcases enableFastLoop_calls env MAX_RETRIES 0 c h with h' | h' | h' <;>
        simp [h', Call.step]

/-- A set cancellation flag observed in the convergence wait forces
`SIGNAL_INTERRUPTED`. -/
lemma waitHomingDone_shutdown (env : Env) (cfg : Config) (a : Nat) :
    ∀ fuel k, Call.pollShutdown true ∈ (waitHomingDone env cfg a fuel k).2 →
      (waitHomingDone env cfg a fuel k).1 = .SIGNAL_INTERRUPTED := by
  intro fuel
  induction fuel with
  | zero => intro k h; simp [waitHomingDone] at h
  | succ n ih =>
    intro k h
    simp only [waitHomingDone] at h ⊢
    by_cases hsd : env.shutdown_wait a k
    · simp [hsd]
    · simp only [hsd, if_false, Bool.false_eq_true] at h ⊢
      rcases hst : env.arm_status_wait a k with _ | st <;> simp only [hst] at h ⊢
      · simp only [List.mem_cons] at h
        rcases h with h | h | h
        · exact absurd h (by simp)
        · exact absurd h (by simp)
        · exact ih (k + 1) h
      · by_cases he : st.error_code ≠ 0
        · simp [he] at h
        · simp only [he, if_false, if_neg] at h ⊢
          by_cases hat : allAtTarget st.position_mdeg cfg.target_joints
          · simp [hat] at h
          · simp only [hat, if_false, Bool.false_eq_true, List.mem_cons] at h ⊢
            rcases h with h | h | h
            · exact absurd h (by simp)
            · exact absurd h (by simp)
            · exact ih (k + 1) h

/-- The outcomes the convergence wait can produce. -/
lemma waitHomingDone_results (env : Env) (cfg : Config) (a : Nat) :
    ∀ fuel k, (waitHomingDone env cfg a fuel k).1 = .OK ∨
      (waitHomingDone env cfg a fuel k).1 = .HOME_TIMEOUT ∨
      (waitHomingDone env cfg a fuel k).1 = .ARM_ERROR ∨
      (waitHomingDone env cfg a fuel k).1 = .SIGNAL_INTERRUPTED := by
  intro fuel
  induction fuel with
  | zero => intro k; simp [waitHomingDone]
  | succ n ih =>
    intro k
    simp only [waitHomingDone]
    by_cases hsd : env.shutdown_wait a k
    · simp [hsd]
    · simp only [hsd, if_false, Bool.false_eq_true]
      rcases hst : env.arm_status_wait a k with _ | st
      · simpa using ih (k + 1)
      · by_cases he : st.error_code ≠ 0
        · simp [he]
        · simp only [he, if_false, if_neg]
          by_cases hat : allAtTarget st.position_mdeg cfg.target_joints
          · simp [hat]
          · simpa [hat] using ih (k + 1)

/-- The convergence wait only fetches arm statuses (and reads the flag). -/
lemma waitHomingDone_calls (env : Env) (cfg : Config) (a : Nat) :
    ∀ fuel k, ∀ c ∈ (waitHomingDone env cfg a fuel k).2,
      c = .getArmStatus ∨ c = .pollShutdown true ∨ c = .pollShutdown false := by
  intro fuel
  induction fuel with
  | zero => intro k c h; simp [waitHomingDone] at h
  | succ n ih =>
    intro k c h
    simp only [waitHomingDone] at h
    by_cases hsd : env.shutdown_wait a k
    · simp [hsd] at h; simp [h]
    · simp only [hsd, if_false, Bool.false_eq_true] at h
      rcases hst : env.arm_status_wait a k with _ | st <;> simp only [hst] at h
      · simp only [List.mem_cons] at h
        rcases h with h | h | h
        · simp [h]
        · simp [h]
        · exact ih (k + 1) c h
      · by_cases he : st.error_code ≠ 0
        · simp [he] at h; tauto
        · simp only [he, if_false, if_neg] at h
          by_cases hat : allAtTarget st.position_mdeg cfg.target_joints
          · simp [hat] at h; tauto
          · simp only [hat, if_false, Bool.false_eq_true, List.mem_cons] at h
            rcases h with h | h | h
            · simp [h]
            · simp [h]
            · exact ih (k + 1) c h

/-- When no cancellation is observed and every fetched status has a clear
error code but a non-converged position, the convergence wait times out. -/
lemma waitHomingDone_never (env : Env) (cfg : Config) (a : Nat)
    (hsd : ∀ k, env.shutdown_wait a k = false)
    (hst : ∀ k st, env.arm_status_wait a k = some st →
      st.error_code = 0 ∧ allAtTarget st.position_mdeg cfg.target_joints = false) :
    ∀ fuel k, (waitHomingDone env cfg a fuel k).1 = .HOME_TIMEOUT := by
  intro fuel
  induction fuel with
  | zero => intro k; simp [waitHomingDone]
  | succ n ih =>
    intro k
    simp only [waitHomingDone, hsd, if_false, Bool.false_eq_true]
    rcases hs : env.arm_status_wait a k with _ | st
    · exact ih (k + 1)
    · obtain ⟨he, hat⟩ := hst k st hs
      simp [he, hat, ih (k + 1)]

/-- A nonzero error code at a reached poll makes the convergence wait
return `ARM_ERROR` at that poll. -/
lemma waitHomingDone_armError (env : Env) (cfg : Config) (a fuel k : Nat)
    (st : ArmStatus) (hsd : env.shutdown_wait a k = false)
    (hs : env.arm_status_wait a k = some st) (he : st.error_code ≠ 0) :
    waitHomingDone env cfg a (fuel + 1) k =
      (.ARM_ERROR, [.pollShutdown false, .getArmStatus]) := by
  simp [waitHomingDone, hsd, hs, he]

/-- A set cancellation flag observed anywhere in the homing retry loop
forces `SIGNAL_INTERRUPTED`. -/
lemma performHomingLoop_shutdown (env : Env) (cfg : Config) :
    ∀ fuel a, Call.pollShutdown true ∈ (performHomingLoop env cfg fuel a).2 →
      (performHomingLoop env cfg fuel a).1 = .SIGNAL_INTERRUPTED := by
  intro fuel
  induction fuel with
  | zero => intro a h; simp [performHomingLoop] at h
  | succ n ih =>
    intro a h
    simp only [performHomingLoop] at h ⊢
    cases hsd : env.shutdown_homing a with
    | true => simp [hsd]
    | false =>
      simp only [hsd, if_false, Bool.false_eq_true] at h ⊢
      cases hm : env.motion_ok a with
      | false =>
        simp only [hm, Bool.not_false, if_true, List.mem_cons] at h ⊢
        rcases h with h | h | h
        · exact absurd h (by simp)
        · exact absurd h (by simp)
        · exact ih (a + 1) h
      | true =>
        simp only [hm, Bool.not_true, if_false, Bool.false_eq_true] at h ⊢
        cases hv : env.move_ok a with
        | false =>
          simp only [hv, Bool.not_false, if_true, List.mem_cons] at h ⊢
          rcases h with h | h | h | h
          · exact absurd h (by simp)
          · exact absurd h (by simp)
          · exact absurd h (by simp)
          · exact ih (a + 1) h
        | true =>
          simp only [hv, Bool.not_true, if_false, Bool.false_eq_true] at h ⊢
          by_cases hw : (waitHomingDone env cfg a (env.homing_polls a) 0).1 = .OK
          · simp only [hw, if_true, List.mem_cons] at h
            rcases h with h | h | h | h
            · exact absurd h (by simp)
            · exact absurd h (by simp)
            · exact absurd h (by simp)
            · exact absurd (waitHomingDone_shutdown env cfg a _ 0 h) (by simp [hw])
          · by_cases hw2 : (waitHomingDone env cfg a (env.homing_polls a) 0).1 =
                .SIGNAL_INTERRUPTED
            · simp [hw, hw2]
            · rw [if_neg hw, if_neg hw2] at h ⊢
              have h' : Call.pollShutdown true ∈
                    (waitHomingDone env cfg a (env.homing_polls a) 0).2 ∨
                  Call.pollShutdown true ∈ (performHomingLoop env cfg n (a + 1)).2 := by
                simpa using h
              rcases h' with h' | h'
              · exact absurd (waitHomingDone_shutdown env cfg a _ 0 h') hw2
              · exact ih (a + 1) h'

/-- The outcomes the homing retry loop can produce: everything except OK
and `SIGNAL_INTERRUPTED` from the convergence wait is absorbed into the
next attempt, so only OK, `HOME_FAILED` and `SIGNAL_INTERRUPTED` escape. -/
lemma performHomingLoop_results (env : Env) (cfg : Config) :
    ∀ fuel a, (performHomingLoop env cfg fuel a).1 = .OK ∨
      (performHomingLoop env cfg fuel a).1 = .HOME_FAILED ∨
      (performHomingLoop env cfg fuel a).1 = .SIGNAL_INTERRUPTED := by
  intro fuel
  induction fuel with
  | zero => intro a; simp [performHomingLoop]
  | succ n ih =>
    intro a
    simp only [performHomingLoop]
    cases hsd : env.shutdown_homing a with
    | true => simp
    | false =>
      simp only [if_false, Bool.false_eq_true]
      cases hm : env.motion_ok a with
      | false => simpa [hm] using ih (a + 1)
      | true =>
        simp only [hm, Bool.not_true, if_false, Bool.false_eq_true]
        cases hv : env.move_ok a with
        | false => simpa [hv] using ih (a + 1)
        | true =>
          simp only [hv, Bool.not_true, if_false, Bool.false_eq_true]
          by_cases hw : (waitHomingDone env cfg a (env.homing_polls a) 0).1 = .OK
          · simp [hw]
          · by_cases hw2 : (waitHomingDone env cfg a (env.homing_polls a) 0).1 =
                .SIGNAL_INTERRUPTED
            · simp [hw, hw2]
            · simpa [hw, hw2] using ih (a + 1)

/-- The convergence wait never issues motion or move commands. -/
lemma waitHomingDone_count_zero (env : Env) (cfg : Config) (a fuel k : Nat) :
    (waitHomingDone env cfg a fuel k).2.count .motionControl2 = 0 ∧
      (waitHomingDone env cfg a fuel k).2.count .moveJoint = 0 := by
  constructor <;>
  · rw [List.count_eq_zero]
    intro hmem
    rcases waitHomingDone_calls env cfg a fuel k _ hmem with h | h | h <;> simp at h

/-- When no attempt's convergence wait returns OK or `SIGNAL_INTERRUPTED`
and cancellation is never observed at an attempt head, the homing retry
loop exhausts all its attempts and returns `HOME_FAILED`. -/
lemma performHomingLoop_exhaust (env : Env) (cfg : Config)
    (hsd : ∀ a, env.shutdown_homing a = false)
    (hw : ∀ a, (waitHomingDone env cfg a (env.homing_polls a) 0).1 ≠ .OK ∧
      (waitHomingDone env cfg a (env.homing_polls a) 0).1 ≠ .SIGNAL_INTERRUPTED) :
    ∀ fuel a, (performHomingLoop env cfg fuel a).1 = .HOME_FAILED := by
  intro fuel
  induction fuel with
  | zero => intro a; simp [performHomingLoop]
  | succ n ih =>
    intro a
    simp only [performHomingLoop, hsd, if_false, Bool.false_eq_true]
    cases hm : env.motion_ok a with
    | false => simpa [hm] using ih (a + 1)
    | true =>
      simp only [hm, Bool.not_true, if_false, Bool.false_eq_true]
      cases hv : env.move_ok a with
      | false => simpa [hv] using ih (a + 1)
      | true =>
        simp only [hv, Bool.not_true, if_false, Bool.false_eq_true]
        rw [if_neg (hw a).1, if_neg (hw a).2]
        exact ih (a + 1)

/-- When every attempt's commands succeed and every attempt's wait times
out, the homing retry loop returns `HOME_FAILED` after issuing exactly one
mode-set and one move command per attempt. -/
lemma performHomingLoop_counts (env : Env) (cfg : Config)
    (hsd : ∀ a, env.shutdown_homing a = false)
    (hm : ∀ a, env.motion_ok a = true)
    (hv : ∀ a, env.move_ok a = true)
    (hw : ∀ a, (waitHomingDone env cfg a (env.homing_polls a) 0).1 = .HOME_TIMEOUT) :
    ∀ fuel a, (performHomingLoop env cfg fuel a).1 = .HOME_FAILED ∧
      (performHomingLoop env cfg fuel a).2.count .motionControl2 = fuel ∧
      (performHomingLoop env cfg fuel a).2.count .moveJoint = fuel := by
  intro fuel
  induction fuel with
  | zero => intro a; simp [performHomingLoop]
  | succ n ih =>
    intro a
    simp only [performHomingLoop, hsd, hm, hv, Bool.not_true, if_false,
      Bool.false_eq_true]
    rw [if_neg (by simp [hw a]), if_neg (by simp [hw a])]
    obtain ⟨h1, h2, h3⟩ := ih (a + 1)
    obtain ⟨hz1, hz2⟩ := waitHomingDone_count_zero env cfg a (env.homing_polls a) 0
    refine ⟨h1, ?_, ?_⟩ <;>
      simp [List.count_cons, List.count_append, h2, h3, hz1, hz2]

/-- `enableMotors` always issues the initial `enable_arm` command. -/
lemma enableMotors_enableArm_mem (env : Env) :
    Call.enableArm ∈ (enableMotors env).2 := by
  rcases hr : (enableFastLoop env MAX_RETRIES 0).1 with _ | e
  · by_cases hge : MAX_RETRIES ≤ (enableFastLoop env MAX_RETRIES 0).2.1
    · simp [enableMotors, hr, hge]
    · simp [enableMotors, hr, hge]
  · simp [enableMotors, hr]

/-- All outcomes `run` can produce (`none` is the undefined dereference). -/
lemma run_results (env : Env) (cfg : Config) :
    (run env cfg).1 = none ∨ (run env cfg).1 = some .OK ∨
      (run env cfg).1 = some .CAN_OPEN_FAILED ∨
      (run env cfg).1 = some .CONNECT_FAILED ∨
      (run env cfg).1 = some .SIGNAL_INTERRUPTED ∨
      (run env cfg).1 = some .ARM_ERROR ∨
      (run env cfg).1 = some .ENABLE_TIMEOUT ∨
      (run env cfg).1 = some .HOME_FAILED := by
  unfold run
  cases hc : env.create_ok with
  | false => simp
  | true =>
    cases hp : env.connect_port_ok with
    | false => simp
    | true =>
      simp only [Bool.not_true, if_false, Bool.false_eq_true]
      by_cases h3 : (waitForConnection env env.connect_polls 0).1 = .OK
      · rw [if_neg (by simp [h3])]
        rcases h4 : (checkArmStatus env).1 with _ | e4
        · simp
        · have hcr := checkArmStatus_results env
          rw [h4] at hcr
          by_cases h4ok : e4 = .OK
          · subst h4ok
            by_cases h5 : (enableMotors env).1 = .OK
            · rcases performHomingLoop_results env cfg cfg.home_retry_count 0 with
                h6 | h6 | h6 <;> simp [performHoming, h6, h5]
            · rcases enableMotors_results env with h' | h' | h'
              · exact absurd h' h5
              · simp [h', h5]
              · simp [h', h5]
          · rcases hcr with h' | h' | h'
            · simp at h'
            · simp_all
            · simp_all
      · rw [if_pos h3]
        rcases waitForConnection_results env env.connect_polls 0 with h' | h' | h' <;>
          simp [h']

/-! ### Claim theorems -/

/-- C4: for an arm-status snapshot with a clear error code, a reached
convergence poll succeeds when every compared joint is within 1000 mdeg
of its target, and reports non-convergence (the loop continues to the
next poll) when any single compared joint differs by more than 1000. -/
theorem C4_convergence_tolerance (env : Env) (cfg : Config) (a k fuel : Nat)
    (st : ArmStatus) (hsd : env.shutdown_wait a k = false)
    (hs : env.arm_status_wait a k = some st) (he : st.error_code = 0) :
    ((∀ pt ∈ st.position_mdeg.zip cfg.target_joints,
        |pt.1 - pt.2| ≤ kPositionTolerance) →
      (waitHomingDone env cfg a (fuel + 1) k).1 = .OK) ∧
    ((∃ pt ∈ st.position_mdeg.zip cfg.target_joints,
        kPositionTolerance < |pt.1 - pt.2|) →
      waitHomingDone env cfg a (fuel + 1) k =
        ((waitHomingDone env cfg a fuel (k + 1)).1,
          .pollShutdown false :: .getArmStatus ::
            (waitHomingDone env cfg a fuel (k + 1)).2)) := by
  constructor
  · intro hall
    have hat : allAtTarget st.position_mdeg cfg.target_joints = true := by
      unfold allAtTarget
      rw [List.all_eq_true]
      intro pt hpt
      exact decide_eq_true (hall pt hpt)
    simp [waitHomingDone, hsd, hs, he, hat]
  · rintro ⟨pt, hpt, hgt⟩
    have hat : allAtTarget st.position_mdeg cfg.target_joints = false := by
      rcases hb : allAtTarget st.position_mdeg cfg.target_joints with _ | _
      · rfl
      · unfold allAtTarget at hb
        rw [List.all_eq_true] at hb
        have := of_decide_eq_true (hb pt hpt)
        omega
    simp [waitHomingDone, hsd, hs, he, hat]

/-- C4 witness: with the cooperative environment the first convergence
poll succeeds. -/
theorem C4_witness : (waitHomingDone testEnv cfg0 0 1 0).1 = .OK :=
  (C4_convergence_tolerance testEnv cfg0 0 0 0 stOk rfl rfl rfl).1 (by decide)

/-- C8: when the first arm status carries a nonzero error code and the
post-reset re-fetch returns no status, `checkArmStatus` reaches the
dereference of an empty optional, so the step has no defined outcome. -/
theorem C8_undefined_deref (env : Env) (st : ArmStatus)
    (h1 : env.arm_status_first = some st) (h2 : st.error_code ≠ 0)
    (h3 : env.arm_status_refetch = none) :
    (checkArmStatus env).1 = none := by
  simp [checkArmStatus, h1, h2, h3]

/-- C8 witness: error 3 then a missing re-fetch hits the undefined path. -/
theorem C8_witness : (checkArmStatus envErrThenMissing).1 = none :=
  C8_undefined_deref envErrThenMissing stErr rfl (by decide) rfl

/-- C9: `run` can never return `ENABLE_FAILED`, `HOME_TIMEOUT` or
`STATUS_CHECK_FAILED`: a failed enable acknowledgment is non-fatal, a
homing-wait timeout is absorbed by the retry loop (surfacing only as
`HOME_FAILED`), and nothing produces `STATUS_CHECK_FAILED`. -/
theorem C9_unreachable_outcomes (env : Env) (cfg : Config) :
    (run env cfg).1 ≠ some .ENABLE_FAILED ∧
    (run env cfg).1 ≠ some .HOME_TIMEOUT ∧
    (run env cfg).1 ≠ some .STATUS_CHECK_FAILED := by
  rcases run_results env cfg with h | h | h | h | h | h | h | h <;> simp [h]

/-- C10: a homing convergence poll that fetches a clear-error status
whose joint-position vector is empty reports convergence vacuously. -/
theorem C10_empty_positions_converge (env : Env) (cfg : Config)
    (a k fuel : Nat) (st : ArmStatus) (hsd : env.shutdown_wait a k = false)
    (hs : env.arm_status_wait a k = some st) (he : st.error_code = 0)
    (hemp : st.position_mdeg = []) :
    (waitHomingDone env cfg a (fuel + 1) k).1 = .OK := by
  have hat : allAtTarget st.position_mdeg cfg.target_joints = true := by
    rw [hemp]
    rfl
  simp [waitHomingDone, hsd, hs, he, hat]

/-- C10 witness: an empty position report converges on the first poll. -/
theorem C10_witness : (waitHomingDone envEmptyJoints cfg0 0 1 0).1 = .OK :=
  C10_empty_positions_converge envEmptyJoints cfg0 0 0 0 stEmpty rfl rfl rfl rfl

/-- C5: when the fast confirmation loop never observes `enable_piper()`
succeed, the long deadline-bounded loop is entered (the total number of
`enable_piper` calls is the fast loop's `MAX_RETRIES + 1` plus one per
long-loop iteration), and when that loop also never confirms and no
cancellation occurs the step returns `ENABLE_TIMEOUT`. -/
theorem C5_enable_two_tier (env : Env)
    (hf : ∀ j, env.enable_fast j = false)
    (hsdf : ∀ j, env.shutdown_enable_fast j = false)
    (hs : ∀ j, env.enable_slow j = false)
    (hsds : ∀ j, env.shutdown_enable_slow j = false) :
    (enableMotors env).1 = .ENABLE_TIMEOUT ∧
    (enableMotors env).2.count .enablePiper = (MAX_RETRIES + 1) + env.enable_polls := by
  obtain ⟨hf1, hf2, hf3⟩ := enableFastLoop_never env hf hsdf MAX_RETRIES 0
  obtain ⟨hs1, hs2⟩ := enableSlowLoop_never env hs hsds env.enable_polls 0
  have hge : MAX_RETRIES ≤ (enableFastLoop env MAX_RETRIES 0).2.1 := by omega
  constructor
  · simp [enableMotors, hf1, hge, hs1]
  · simp [enableMotors, hf1, hge, List.count_cons, List.count_append, hf3, hs2]

/-- C5 witness: a device that never confirms enabling yields
`ENABLE_TIMEOUT` after 201 fast-loop calls plus 5 long-loop calls. -/
theorem C5_witness :
    (enableMotors envNeverEnable).1 = .ENABLE_TIMEOUT ∧
    (enableMotors envNeverEnable).2.count .enablePiper = 206 :=
  C5_enable_two_tier envNeverEnable (fun _ => rfl) (fun _ => rfl)
    (fun _ => rfl) (fun _ => rfl)

/-- C1 counterexample: with `home_retry_count = 2` and every convergence
wait timing out (clear error codes, never at target), the homing step
issues exactly 2 mode-set and 2 move commands — not 3 — before
`HOME_FAILED`, already at the orchestrator level. -/
theorem C1_counterexample :
    (run envNoConverge cfg0).1 = some .HOME_FAILED ∧
    cfg0.home_retry_count = 2 ∧
    (run envNoConverge cfg0).2.count .motionControl2 = 2 ∧
    (run envNoConverge cfg0).2.count .moveJoint = 2 ∧
    ¬(run envNoConverge cfg0).2.count .moveJoint = 3 := by
  refine ⟨?_, rfl, ?_, ?_, ?_⟩ <;> decide

/-- C1 amended: the homing retry loop makes exactly `home_retry_count`
total attempts (each issuing one mode-set and one move command) and then
returns `HOME_FAILED`, when every attempt's convergence wait times out
with no fatal arm error and no cancellation. -/
theorem C1_homing_attempt_count (env : Env) (cfg : Config)
    (hsd : ∀ a, env.shutdown_homing a = false)
    (hm : ∀ a, env.motion_ok a = true)
    (hv : ∀ a, env.move_ok a = true)
    (hwsd : ∀ a j, env.shutdown_wait a j = false)
    (hst : ∀ a j st, env.arm_status_wait a j = some st →
      st.error_code = 0 ∧ allAtTarget st.position_mdeg cfg.target_joints = false) :
    (performHoming env cfg).1 = .HOME_FAILED ∧
    (performHoming env cfg).2.count .motionControl2 = cfg.home_retry_count ∧
    (performHoming env cfg).2.count .moveJoint = cfg.home_retry_count := by
  have hw : ∀ a, (waitHomingDone env cfg a (env.homing_polls a) 0).1 = .HOME_TIMEOUT :=
    fun a => waitHomingDone_never env cfg a (hwsd a) (hst a) (env.homing_polls a) 0
  exact performHomingLoop_counts env cfg hsd hm hv hw cfg.home_retry_count 0

/-- C1 witness: the amended count theorem at the non-converging
environment with the default configuration. -/
theorem C1_witness :
    (performHoming envNoConverge cfg0).1 = .HOME_FAILED ∧
    (performHoming envNoConverge cfg0).2.count .motionControl2 = 2 ∧
    (performHoming envNoConverge cfg0).2.count .moveJoint = 2 :=
  C1_homing_attempt_count envNoConverge cfg0 (fun _ => rfl) (fun _ => rfl)
    (fun _ => rfl) (fun _ _ => rfl)
    (fun _ _ st h => by
      cases h
      exact ⟨rfl, by decide⟩)

/-- C2 counterexample: the first attempt's convergence wait returns
`ARM_ERROR`, yet the homing step retries and returns OK from the second
attempt — the `ArmError` outcome is not propagated to the orchestrator. -/
theorem C2_counterexample :
    (waitHomingDone envArmErrFirst cfg0 0 (envArmErrFirst.homing_polls 0) 0).1 =
      .ARM_ERROR ∧
    (performHoming envArmErrFirst cfg0).1 = .OK := by
  refine ⟨?_, ?_⟩ <;> decide

/-- C2 amended: an `ARM_ERROR` from the convergence wait is treated like
any other failed attempt: the retry loop proceeds to the next attempt,
and when every attempt's wait reports `ARM_ERROR` the homing step
returns `HOME_FAILED`, not `ARM_ERROR`. -/
theorem C2_armerror_absorbed (env : Env) (cfg : Config)
    (hsd : ∀ a, env.shutdown_homing a = false)
    (hwsd : ∀ a, env.shutdown_wait a 0 = false)
    (hpoll : ∀ a, 1 ≤ env.homing_polls a)
    (hst : ∀ a, ∃ st, env.arm_status_wait a 0 = some st ∧ st.error_code ≠ 0) :
    (∀ a, (waitHomingDone env cfg a (env.homing_polls a) 0).1 = .ARM_ERROR) ∧
    (performHoming env cfg).1 = .HOME_FAILED := by
  have hw : ∀ a, (waitHomingDone env cfg a (env.homing_polls a) 0).1 = .ARM_ERROR := by
    intro a
    obtain ⟨st, hsa, he⟩ := hst a
    obtain ⟨f, hfp⟩ : ∃ f, env.homing_polls a = f + 1 := by
      have := hpoll a
      exact ⟨env.homing_polls a - 1, by omega⟩
    rw [hfp, waitHomingDone_armError env cfg a f 0 st (hwsd a) hsa he]
  refine ⟨hw, performHomingLoop_exhaust env cfg hsd (fun a => ?_) cfg.home_retry_count 0⟩
  rw [(hw a)]
  exact ⟨by simp, by simp⟩

/-- C2 amended witness: an environment whose every attempt observes arm
error 3 at the first poll returns `HOME_FAILED` from the homing step. -/
theorem C2_witness :
    (∀ a, (waitHomingDone envAllArmErr cfg0 a (envAllArmErr.homing_polls a) 0).1 =
      .ARM_ERROR) ∧
    (performHoming envAllArmErr cfg0).1 = .HOME_FAILED :=
  C2_armerror_absorbed envAllArmErr cfg0 (fun _ => rfl) (fun _ => rfl)
    (fun _ => by show 1 ≤ 2; decide) (fun _ => ⟨stErr, rfl, by decide⟩)

/-- Evaluation of `run` when the status check is the first failing step. -/
lemma run_fail_at_check (env : Env) (cfg : Config) (e : InitError)
    (hc : env.create_ok = true) (hp : env.connect_port_ok = true)
    (h3 : (waitForConnection env env.connect_polls 0).1 = .OK)
    (h4 : (checkArmStatus env).1 = some e) (hne : e ≠ .OK) :
    run env cfg = (some e, .create :: .connectPort ::
      ((waitForConnection env env.connect_polls 0).2 ++ (checkArmStatus env).2)) := by
  simp [run, hc, hp, h3, h4, hne]

/-- When the first four steps succeed, the enable command is issued. -/
lemma run_enableArm_mem (env : Env) (cfg : Config)
    (hc : env.create_ok = true) (hp : env.connect_port_ok = true)
    (h3 : (waitForConnection env env.connect_polls 0).1 = .OK)
    (h4 : (checkArmStatus env).1 = some .OK) :
    Call.enableArm ∈ (run env cfg).2 := by
  have hmem := enableMotors_enableArm_mem env
  by_cases h5 : (enableMotors env).1 = .OK
  · simp [run, hc, hp, h3, h4, h5, hmem]
  · simp [run, hc, hp, h3, h4, h5, hmem]

/-- C3: whenever the cancellation flag is observed set at any poll
checkpoint of any loop during a run, the run's outcome is
`SIGNAL_INTERRUPTED`, never an outcome of a later step or of the same
loop's timeout path. -/
theorem C3_cancellation_priority (env : Env) (cfg : Config)
    (h : Call.pollShutdown true ∈ (run env cfg).2) :
    (run env cfg).1 = some .SIGNAL_INTERRUPTED := by
  unfold run at h ⊢
  cases hc : env.create_ok with
  | false => simp [hc] at h
  | true =>
    cases hp : env.connect_port_ok with
    | false => simp [hc, hp] at h
    | true =>
      simp only [hc, hp, Bool.not_true, if_false, Bool.false_eq_true] at h ⊢
      by_cases h3 : (waitForConnection env env.connect_polls 0).1 = .OK
      · rw [if_neg (not_not_intro h3)] at h ⊢
        rcases ho : (checkArmStatus env).1 with _ | e4 <;> rw [ho] at h
        · exfalso
          have h' : Call.pollShutdown true ∈
                (waitForConnection env env.connect_polls 0).2 ∨
              Call.pollShutdown true ∈ (checkArmStatus env).2 := by
            simpa using h
          rcases h' with h' | h'
          · exact absurd (waitForConnection_shutdown env env.connect_polls 0 h')
              (by simp [h3])
          · rcases checkArmStatus_calls env _ h' with hx | hx <;> simp at hx
        · by_cases h4ok : e4 = .OK
          · subst h4ok
            by_cases h5 : (enableMotors env).1 = .OK
            · have h' : Call.pollShutdown true ∈
                    (waitForConnection env env.connect_polls 0).2 ∨
                  Call.pollShutdown true ∈ (checkArmStatus env).2 ∨
                  Call.pollShutdown true ∈ (enableMotors env).2 ∨
                  Call.pollShutdown true ∈ (performHoming env cfg).2 := by
                simpa [h5] using h
              rcases h' with h' | h' | h' | h'
              · exact absurd (waitForConnection_shutdown env env.connect_polls 0 h')
                  (by simp [h3])
              · rcases checkArmStatus_calls env _ h' with hx | hx <;> simp at hx
              · exact absurd (enableMotors_shutdown env h') (by simp [h5])
              · have h6 := performHomingLoop_shutdown env cfg cfg.home_retry_count 0 h'
                simp [h5, performHoming, h6]
            · have h' : Call.pollShutdown true ∈
                    (waitForConnection env env.connect_polls 0).2 ∨
                  Call.pollShutdown true ∈ (checkArmStatus env).2 ∨
                  Call.pollShutdown true ∈ (enableMotors env).2 := by
                simpa [h5] using h
              rcases h' with h' | h' | h'
              · exact absurd (waitForConnection_shutdown env env.connect_polls 0 h')
                  (by simp [h3])
              · rcases checkArmStatus_calls env _ h' with hx | hx <;> simp at hx
              · have h6 := enableMotors_shutdown env h'
                simp [h5, h6]
          · exfalso
            have h' : Call.pollShutdown true ∈
                  (waitForConnection env env.connect_polls 0).2 ∨
                Call.pollShutdown true ∈ (checkArmStatus env).2 := by
              simpa [h4ok] using h
            rcases h' with h' | h'
            · exact absurd (waitForConnection_shutdown env env.connect_polls 0 h')
                (by simp [h3])
            · rcases checkArmStatus_calls env _ h' with hx | hx <;> simp at hx
      · rw [if_pos h3] at h ⊢
        have h' : Call.pollShutdown true ∈
            (waitForConnection env env.connect_polls 0).2 := by
          simpa using h
        have h6 := waitForConnection_shutdown env env.connect_polls 0 h'
        simp [h6]

/-- C3 witness: cancellation observed at the first poll of the
wait-for-connection loop yields `SIGNAL_INTERRUPTED`. -/
theorem C3_witness :
    (run envShutdownEarly cfg0).1 = some .SIGNAL_INTERRUPTED :=
  C3_cancellation_priority envShutdownEarly cfg0 (by decide)

/-- C6: a failure at step `k` short-circuits the sequence: the failing
step's outcome is the run's result and no call of a later step is ever
issued (every call in the trace belongs to a step `≤ k`). -/
theorem C6_short_circuit (env : Env) (cfg : Config) (k : Nat) (e : InitError)
    (h : failsAt env cfg k e) :
    (run env cfg).1 = some e ∧ ∀ c ∈ (run env cfg).2, c.step ≤ k := by
  match k with
  | 0 => exact h.elim
  | 1 =>
    obtain ⟨h1, he⟩ := h
    subst he
    refine ⟨by simp [run, h1], fun c hc => ?_⟩
    simp [run, h1] at hc
    simp [hc, Call.step]
  | 2 =>
    obtain ⟨h1, h2, he⟩ := h
    subst he
    refine ⟨by simp [run, h1, h2], fun c hc => ?_⟩
    simp [run, h1, h2] at hc
    rcases hc with hc | hc <;> simp [hc, Call.step]
  | 3 =>
    obtain ⟨h1, h2, h3, hne⟩ := h
    refine ⟨by simp [run, h1, h2, h3, hne], fun c hc => ?_⟩
    simp [run, h1, h2, h3, hne] at hc
    rcases hc with hc | hc | hc
    · simp [hc, Call.step]
    · simp [hc, Call.step]
    · exact waitForConnection_steps env env.connect_polls 0 c hc
  | 4 =>
    obtain ⟨h1, h2, h3, h4, hne⟩ := h
    refine ⟨by simp [run, h1, h2, h3, h4, hne], fun c hc => ?_⟩
    simp [run, h1, h2, h3, h4, hne] at hc
    rcases hc with hc | hc | hc | hc
    · simp [hc, Call.step]
    · simp [hc, Call.step]
    · exact le_trans (waitForConnection_steps env env.connect_polls 0 c hc)
        (by norm_num)
    · rcases checkArmStatus_calls env c hc with hx | hx <;> simp [hx, Call.step]
  | 5 =>
    obtain ⟨h1, h2, h3, h4, h5, hne⟩ := h
    refine ⟨by simp [run, h1, h2, h3, h4, h5, hne], fun c hc => ?_⟩
    simp [run, h1, h2, h3, h4, h5, hne] at hc
    rcases hc with hc | hc | hc | hc | hc
    · simp [hc, Call.step]
    · simp [hc, Call.step]
    · exact le_trans (waitForConnection_steps env env.connect_polls 0 c hc)
        (by norm_num)
    · rcases checkArmStatus_calls env c hc with hx | hx <;> simp [hx, Call.step]
    · exact enableMotors_steps env c hc
  | 6 =>
    obtain ⟨h1, h2, h3, h4, h5, h6, hne⟩ := h
    refine ⟨by simp [run, h1, h2, h3, h4, h5, h6, hne], fun c hc => ?_⟩
    cases c <;> simp [Call.step]
  | n + 7 => exact h.elim

/-- C6 witness: a device that never reports `connected = true` makes
`run` return `CONNECT_FAILED` with no enable and no move command ever
issued. -/
theorem C6_witness :
    (run envNeverConnected cfg0).1 = some .CONNECT_FAILED ∧
    (run envNeverConnected cfg0).2.count .enableArm = 0 ∧
    (run envNeverConnected cfg0).2.count .moveJoint = 0 := by
  have h := C6_short_circuit envNeverConnected cfg0 3 .CONNECT_FAILED
    ⟨rfl, rfl, by decide, by decide⟩
  refine ⟨h.1, ?_, ?_⟩ <;>
  · rw [List.count_eq_zero]
    intro hmem
    have := h.2 _ hmem
    simp [Call.step] at this

/-- C7: when the first status read shows a nonzero error code, the reset
command is issued and the status re-fetched; a persisting error makes
the run return `ARM_ERROR` (exit code 9) with no enable command ever
issued, while a cleared error lets the step succeed and the run continue
into the enable step. -/
theorem C7_status_check_reset (env : Env) (cfg : Config) (st st2 : ArmStatus)
    (h1 : env.arm_status_first = some st) (h2 : st.error_code ≠ 0)
    (h3 : env.arm_status_refetch = some st2)
    (hc : env.create_ok = true) (hp : env.connect_port_ok = true)
    (h3ok : (waitForConnection env env.connect_polls 0).1 = .OK) :
    (checkArmStatus env).2 = [.getArmStatus, .resetArm, .getArmStatus] ∧
    (st2.error_code ≠ 0 →
      (run env cfg).1 = some .ARM_ERROR ∧ InitError.code .ARM_ERROR = 9 ∧
      Call.enableArm ∉ (run env cfg).2) ∧
    (st2.error_code = 0 →
      (checkArmStatus env).1 = some .OK ∧ Call.enableArm ∈ (run env cfg).2) := by
  refine ⟨?_, ?_, ?_⟩
  · by_cases he2 : st2.error_code ≠ 0 <;> simp [checkArmStatus, h1, h2, h3, he2]
  · intro he2
    have h4 : (checkArmStatus env).1 = some .ARM_ERROR := by
      simp [checkArmStatus, h1, h2, h3, he2]
    have hrun := run_fail_at_check env cfg .ARM_ERROR hc hp h3ok h4 (by simp)
    refine ⟨by rw [hrun], rfl, ?_⟩
    rw [hrun]
    intro hmem
    simp only [List.mem_cons, List.mem_append] at hmem
    rcases hmem with hm | hm | hm | hm
    · simp at hm
    · simp at hm
    · have := waitForConnection_steps env env.connect_polls 0 _ hm
      simp [Call.step] at this
    · rcases checkArmStatus_calls env _ hm with hx | hx <;> simp at hx
  · intro he2
    have h4 : (checkArmStatus env).1 = some .OK := by
      simp [checkArmStatus, h1, h2, h3, he2]
    exact ⟨h4, run_enableArm_mem env cfg hc hp h3ok h4⟩

/-- C7 witness: a persistent error code 3 yields `ARM_ERROR` from the
run with no enable command issued. -/
theorem C7_witness :
    (checkArmStatus envPersistentErr).2 =
      [.getArmStatus, .resetArm, .getArmStatus] ∧
    (run envPersistentErr cfg0).1 = some .ARM_ERROR ∧
    Call.enableArm ∉ (run envPersistentErr cfg0).2 := by
  have h := C7_status_check_reset envPersistentErr cfg0 stErr stErr rfl
    (by decide) rfl rfl rfl (by decide)
  obtain ⟨ha, hb, -⟩ := h
  obtain ⟨hb1, -, hb3⟩ := hb (by decide)
  exact ⟨ha, hb1, hb3⟩
